import Mathlib

/-!
Shallow embedding of the tycho-simulation transaction-simulation core
(`protosim/src/evm_simulation/simulation.rs` and
`protosim/src/starknet_simulation/simulation.rs`), with theorems checking
the natural-language specification against the code.

Machine integers (u64, u128, field elements, 256-bit words) are modelled as
`Nat`; byte strings and hash maps as lists (association lists for maps).
Fallible code returns `Except`; a Rust panic is modelled as `Option.none`.
-/

/-- A 256-bit word on the revm side (`revm::primitives::U256`), stored as four
little-endian 64-bit limbs, mirroring `U256::from_limbs([l0, l1, l2, l3])`. -/
structure RU256 where
  l0 : Nat
  l1 : Nat
  l2 : Nat
  l3 : Nat
deriving DecidableEq, Repr

/-- Numeric value of a revm 256-bit word. -/
def RU256.toNat (x : RU256) : Nat :=
  x.l0 + 2 ^ 64 * x.l1 + 2 ^ 128 * x.l2 + 2 ^ 192 * x.l3

/-- A 256-bit word on the ethers side (`ethers::types::U256`); its `.0` field
is the array of four little-endian 64-bit limbs. -/
structure EU256 where
  l0 : Nat
  l1 : Nat
  l2 : Nat
  l3 : Nat
deriving DecidableEq, Repr

/-- Numeric value of an ethers 256-bit word. -/
def EU256.toNat (x : EU256) : Nat :=
  x.l0 + 2 ^ 64 * x.l1 + 2 ^ 128 * x.l2 + 2 ^ 192 * x.l3

/-- Embeds `rU256::from_limbs(key.0)`: the ethers-to-revm word conversion copies the
four limbs unchanged. -/
def rU256_from_limbs (x : EU256) : RU256 :=
  ⟨x.l0, x.l1, x.l2, x.l3⟩

/-- A 20-byte EVM address on the ethers side (`ethers::types::Address`,
alias of `H160`); `.0` is the byte array. -/
structure H160 where
  bytes : List Nat
deriving DecidableEq, Repr

/-- Embeds `Address::zero()`. -/
def H160.zero : H160 :=
  ⟨List.replicate 20 0⟩

/-- A 20-byte address on the revm side (`revm::primitives::B160`). -/
structure RB160 where
  bytes : List Nat
deriving DecidableEq, Repr

/-- Embeds `rB160::from_slice(&addr.0)` / `rB160::from(addr)`: both copy the 20
bytes unchanged. -/
def RB160.from_slice (bs : List Nat) : RB160 :=
  ⟨bs⟩

/-- Embeds `Address::from(b160)`: byte-for-byte conversion back to the ethers side. -/
def H160.fromRB (a : RB160) : H160 :=
  ⟨a.bytes⟩

/-- Embeds `revm::primitives::CreateScheme`. -/
inductive CreateScheme where
  | Create : CreateScheme
  | Create2 (salt : RU256) : CreateScheme
deriving DecidableEq, Repr

/-- Embeds `revm::primitives::TransactTo`. -/
inductive TransactTo where
  | Call (addr : RB160) : TransactTo
  | Create (scheme : CreateScheme) : TransactTo
deriving DecidableEq, Repr

/-- Embeds `SimulationParameters` (EVM), `evm_simulation/simulation.rs`. -/
structure SimulationParameters where
  caller : H160
  «to» : H160
  data : List Nat
  value : EU256
  overrides : Option (List (H160 × List (EU256 × EU256)))
  gas_limit : Option Nat
  block_number : Nat
  timestamp : Nat
deriving Repr

/-- Embeds `SimulationParameters::revm_caller`. -/
def SimulationParameters.revm_caller (p : SimulationParameters) : RB160 :=
  RB160.from_slice p.caller.bytes

/-- Embeds `SimulationParameters::revm_to`: the zero address selects CREATE2
contract creation with a default (zero) salt; any other address is a call. -/
def SimulationParameters.revm_to (p : SimulationParameters) : TransactTo :=
  if p.«to» = H160.zero then
    TransactTo.Create (CreateScheme.Create2 ⟨0, 0, 0, 0⟩)
  else
    TransactTo.Call (RB160.from_slice p.«to».bytes)

/-- Embeds `SimulationParameters::revm_data`: `Bytes::copy_from_slice` copies the
calldata unchanged. -/
def SimulationParameters.revm_data (p : SimulationParameters) : List Nat :=
  p.data

/-- Embeds `SimulationParameters::revm_value`: `rU256::from_limbs(self.value.0)`. -/
def SimulationParameters.revm_value (p : SimulationParameters) : RU256 :=
  rU256_from_limbs p.value

/-- Embeds `SimulationParameters::revm_overrides`: clones the override map, converting
every address with `rB160::from` and every slot key/value with
`rU256::from_limbs`. -/
def SimulationParameters.revm_overrides (p : SimulationParameters) :
    Option (List (RB160 × List (RU256 × RU256))) :=
  p.overrides.map fun original =>
    original.map fun av =>
      (RB160.from_slice av.1.bytes,
       av.2.map fun kv => (rU256_from_limbs kv.1, rU256_from_limbs kv.2))

/-- Embeds `SimulationParameters::revm_gas_limit`: no conversion needed. -/
def SimulationParameters.revm_gas_limit (p : SimulationParameters) : Option Nat :=
  p.gas_limit

/-- Embeds `SimulationParameters::revm_block_number`:
`rU256::from_limbs([self.block_number, 0, 0, 0])`. -/
def SimulationParameters.revm_block_number (p : SimulationParameters) : RU256 :=
  ⟨p.block_number, 0, 0, 0⟩

/-- Embeds `SimulationParameters::revm_timestamp`:
`rU256::from_limbs([self.timestamp, 0, 0, 0])`. -/
def SimulationParameters.revm_timestamp (p : SimulationParameters) : RU256 :=
  ⟨p.timestamp, 0, 0, 0⟩

/-- Embeds `revm::primitives::StorageSlot`. -/
structure StorageSlot where
  previous_or_original_value : RU256
  present_value : RU256
deriving DecidableEq, Repr

/-- Embeds `StorageSlot::is_changed` (revm):
`self.previous_or_original_value != self.present_value`. -/
def StorageSlot.is_changed (s : StorageSlot) : Bool :=
  s.previous_or_original_value != s.present_value

/-- The part of `revm::primitives::AccountInfo` the projector reads. -/
structure AccountInfo where
  balance : RU256
  nonce : Nat
deriving DecidableEq, Repr

/-- Embeds `revm::primitives::Account`: account info plus its touched storage. -/
structure Account where
  info : AccountInfo
  storage : List (RU256 × StorageSlot)
deriving DecidableEq, Repr

/-- Embeds `revm::primitives::State`: the touched-state map of a finished execution,
keyed by address. -/
abbrev EvmState : Type :=
  List (RB160 × Account)

/-- Embeds `revm::primitives::Output`. -/
inductive Output where
  | Call (data : List Nat) : Output
  | Create (data : List Nat) (addr : Option RB160) : Output
deriving DecidableEq, Repr

/-- Embeds `Output::into_data`: returns the output bytes of either variant. -/
def Output.into_data : Output → List Nat
  | Output.Call d => d
  | Output.Create d _ => d

/-- Embeds `revm::primitives::OutOfGasError` (representative variants), together with
its derived `Debug` rendering. -/
inductive OutOfGasError where
  | BasicOutOfGas : OutOfGasError
  | MemoryLimit : OutOfGasError
  | Memory : OutOfGasError
  | Precompile : OutOfGasError
deriving DecidableEq, Repr

/-- Rust derived `Debug` text of an `OutOfGasError` value. -/
def OutOfGasError.debugFmt : OutOfGasError → String
  | OutOfGasError.BasicOutOfGas => "BasicOutOfGas"
  | OutOfGasError.MemoryLimit => "MemoryLimit"
  | OutOfGasError.Memory => "Memory"
  | OutOfGasError.Precompile => "Precompile"

/-- Embeds `revm::primitives::Halt` (representative variants). -/
inductive HaltReason where
  | OutOfGas (e : OutOfGasError) : HaltReason
  | OpcodeNotFound : HaltReason
  | InvalidJump : HaltReason
  | StackOverflow : HaltReason
  | StackUnderflow : HaltReason
deriving DecidableEq, Repr

/-- Rust derived `Debug` text of a `Halt` value, as produced by
`format!` with the debug specifier. -/
def HaltReason.debugFmt : HaltReason → String
  | HaltReason.OutOfGas e => "OutOfGas(" ++ e.debugFmt ++ ")"
  | HaltReason.OpcodeNotFound => "OpcodeNotFound"
  | HaltReason.InvalidJump => "InvalidJump"
  | HaltReason.StackOverflow => "StackOverflow"
  | HaltReason.StackUnderflow => "StackUnderflow"

/-- Embeds `revm::primitives::InvalidTransaction` (representative variants). -/
inductive InvalidTransaction where
  | GasMaxFeeGreaterThanPriorityFee : InvalidTransaction
  | CallerGasLimitMoreThanBlock : InvalidTransaction
  | LackOfFundForGasLimit : InvalidTransaction
deriving DecidableEq, Repr

/-- Rust derived `Debug` text of an `InvalidTransaction` value. -/
def InvalidTransaction.debugFmt : InvalidTransaction → String
  | InvalidTransaction.GasMaxFeeGreaterThanPriorityFee =>
      "GasMaxFeeGreaterThanPriorityFee"
  | InvalidTransaction.CallerGasLimitMoreThanBlock =>
      "CallerGasLimitMoreThanBlock"
  | InvalidTransaction.LackOfFundForGasLimit =>
      "LackOfFundForGasLimit"

/-- Embeds `revm::primitives::ExecutionResult`. -/
inductive ExecutionResult where
  | Success (gas_used : Nat) (gas_refunded : Nat) (output : Output) : ExecutionResult
  | Revert (output : List Nat) (gas_used : Nat) : ExecutionResult
  | Halt (reason : HaltReason) (gas_used : Nat) : ExecutionResult
deriving DecidableEq, Repr

/-- Embeds `revm::primitives::ResultAndState`. -/
structure ResultAndState where
  result : ExecutionResult
  state : EvmState

/-- Embeds `revm::primitives::EVMError`, generic over the database error type. -/
inductive EVMError (DBError : Type) where
  | Transaction (e : InvalidTransaction) : EVMError DBError
  | PrevrandaoNotSet : EVMError DBError
  | Database (e : DBError) : EVMError DBError

/-- Embeds `EVMResult` = `Result<ResultAndState, EVMError<DBError>>`. -/
abbrev EVMResult (DBError : Type) : Type :=
  Except (EVMError DBError) ResultAndState

/-- Embeds `SimulationError` (EVM), `evm_simulation/simulation.rs`. -/
inductive SimulationError where
  | StorageError (msg : String) : SimulationError
  | TransactionError (data : String) (gas_used : Option Nat) : SimulationError
deriving DecidableEq, Repr

/-- Embeds `StateUpdate`, `evm_simulation/account_storage.rs`, as constructed and
asserted on in `simulation.rs`: an optional new balance and an optional map of
changed storage slots. -/
structure StateUpdate where
  storage : Option (List (RU256 × RU256))
  balance : Option RU256
deriving DecidableEq, Repr

/-- Embeds `SimulationResult` (EVM), `evm_simulation/simulation.rs`. -/
structure SimulationResult where
  result : List Nat
  state_updates : List (H160 × StateUpdate)
  gas_used : Nat
deriving DecidableEq, Repr

/-- One lowercase hexadecimal digit, as produced by `hex::encode`. -/
def hexDigit (n : Nat) : Char :=
  Char.ofNat (if n < 10 then 48 + n else 87 + n)

/-- The two lowercase hexadecimal digits of one byte. -/
def hexByte (b : Nat) : List Char :=
  [hexDigit (b / 16), hexDigit (b % 16)]

/-- Embeds `hex::encode`: lowercase hexadecimal rendering of a byte string. -/
def hexEncode (bs : List Nat) : String :=
  String.mk (List.flatten (bs.map hexByte))

/-- The changed slots of the touched storage of one account: the loop body of
`interpret_evm_success` keeps `(index, slot.present_value)` exactly for the
slots with `slot.is_changed()`. -/
def changedSlots (storage : List (RU256 × StorageSlot)) : List (RU256 × RU256) :=
  (storage.filter fun kv => kv.2.is_changed).map fun kv => (kv.1, kv.2.present_value)

/-- Embeds `interpret_evm_success`, `evm_simulation/simulation.rs`: projects a
successful execution into a `SimulationResult`. -/
def interpret_evm_success (gas_used : Nat) (gas_refunded : Nat) (output : Output)
    (state : EvmState) : SimulationResult :=
  { result := output.into_data
    state_updates :=
      state.map fun entry =>
        (H160.fromRB entry.1,
         { balance := some entry.2.info.balance
           storage :=
             if entry.2.storage.isEmpty then
               none
             else
               let slot_updates := changedSlots entry.2.storage
               if slot_updates.isEmpty then none else some slot_updates })
    gas_used := gas_used - gas_refunded }

/-- Embeds `interpret_evm_result`, `evm_simulation/simulation.rs`. The parameter
`dbg` stands for the `Debug` rendering of the generic database error type. -/
def interpret_evm_result {DBError : Type} (dbg : DBError → String)
    (evm_result : EVMResult DBError) : Except SimulationError SimulationResult :=
  match evm_result with
  | Except.ok ras =>
    match ras.result with
    | ExecutionResult.Success g r out =>
        Except.ok (interpret_evm_success g r out ras.state)
    | ExecutionResult.Revert out g =>
        Except.error (SimulationError.TransactionError ("0x" ++ hexEncode out) (some g))
    | ExecutionResult.Halt reason g =>
        Except.error (SimulationError.TransactionError reason.debugFmt (some g))
  | Except.error e =>
    match e with
    | EVMError.Transaction itx =>
        Except.error
          (SimulationError.TransactionError ("EVM error: " ++ itx.debugFmt) none)
    | EVMError.PrevrandaoNotSet =>
        Except.error
          (SimulationError.TransactionError ("EVM error: PrevrandaoNotSet") none)
    | EVMError.Database dbe =>
        Except.error (SimulationError.StorageError ("Storage error: " ++ dbg dbe))

/-- Whether an `ExecutionResult` is the `Success` variant. -/
def ExecutionResult.isSuccessVariant : ExecutionResult → Bool
  | ExecutionResult.Success _ _ _ => true
  | _ => false

/-- Whether an `Except` value is `ok`. -/
def exceptIsOk {α β : Type} : Except α β → Bool
  | Except.ok _ => true
  | Except.error _ => false

/-- Association-list lookup, modelling `HashMap::get`. -/
def alookup {α β : Type} [DecidableEq α] : List (α × β) → α → Option β
  | [], _ => none
  | kv :: rest, k => if kv.1 = k then some kv.2 else alookup rest k

/-- Association-list insert-or-overwrite, modelling `HashMap::insert`. -/
def ainsert {α β : Type} [DecidableEq α] : List (α × β) → α → β → List (α × β)
  | [], k, v => [(k, v)]
  | kv :: rest, k, v =>
    if kv.1 = k then (k, v) :: rest else kv :: ainsert rest k v

/-- Modelled from the spec: the simulation database
(`evm_simulation/database.rs`, section 4.B; the file is not under src). At a
fixed block pin it is observable as pure read functions for account basics and
storage; read-through caching changes no observable value (I2, P3), and only
the explicit ingest path mutates it (I1). -/
structure SimulationDB where
  basic : RB160 → Option AccountInfo
  storage : RB160 → RU256 → RU256
  block_number : Nat
  timestamp : Nat

/-- The database view an EVM execution reads through. -/
structure DbView where
  basic : RB160 → Option AccountInfo
  storage : RB160 → RU256 → RU256

/-- Modelled from the spec: `OverriddenSimulationDB`
(`evm_simulation/database.rs`, section 4.C; the file is not under src). A thin
wrapper holding a reference to the inner database and the per-call overrides
map; storage reads consult the overrides first and delegate otherwise, other
reads delegate unchanged, and nothing is ever written to the inner database. -/
def OverriddenSimulationDB (inner_db : SimulationDB)
    (overrides : List (RB160 × List (RU256 × RU256))) : DbView :=
  { basic := inner_db.basic
    storage := fun addr slot =>
      match alookup overrides addr with
      | some slots =>
        match alookup slots slot with
        | some v => v
        | none => inner_db.storage addr slot
      | none => inner_db.storage addr slot }

/-- The transaction and block environment fields `simulate` fills in on the
freshly allocated `EVM` (`vm.env.block.*`, `vm.env.tx.*`). -/
structure TxEnv where
  block_number : RU256
  timestamp : RU256
  caller : RB160
  transact_to : TransactTo
  data : List Nat
  value : RU256
  gas_limit : Nat

/-- The environment `SimulationEngine::simulate` builds from its parameters:
converters applied field by field, the gas limit defaulted with
`unwrap_or(8_000_000)`. -/
def buildEnv (p : SimulationParameters) : TxEnv :=
  { block_number := p.revm_block_number
    timestamp := p.revm_timestamp
    caller := p.revm_caller
    transact_to := p.revm_to
    data := p.revm_data
    value := p.revm_value
    gas_limit := p.revm_gas_limit.getD 8000000 }

/-- Embeds `SimulationEngine` (EVM), `evm_simulation/simulation.rs`. -/
structure SimulationEngine where
  state : SimulationDB
  trace : Bool

/-- The revm execution itself (`transact_ref` / `inspect_ref`) is external to
the repository: it is a function of the environment and the read-only database
view, returning a result and the touched-state map. -/
abbrev EvmExec (DBError : Type) : Type :=
  TxEnv → DbView → EVMResult DBError

/-- Embeds `SimulationEngine::simulate` (EVM): wraps the engine database in a
per-call `OverriddenSimulationDB` (overrides defaulted with
`unwrap_or_default`), fills the environment, runs the VM by reference, and
hands the outcome to `interpret_evm_result`. It takes the engine by shared
reference and executes with `transact_ref`, so the engine observable to the
next call is returned unchanged. -/
def SimulationEngine.simulate {DBError : Type} (ex : EvmExec DBError)
    (dbg : DBError → String) (eng : SimulationEngine) (p : SimulationParameters) :
    Except SimulationError SimulationResult × SimulationEngine :=
  let db_ref := OverriddenSimulationDB eng.state (p.revm_overrides.getD [])
  (interpret_evm_result dbg (ex (buildEnv p) db_ref), eng)

/-- A Starknet field element (`cairo_vm::felt::Felt252`), modelled by its
numeric value. -/
abbrev Felt : Type :=
  Nat

/-- Embeds `starknet_in_rust::utils::Address`: a newtype over a field element. -/
structure StarkAddress where
  val : Nat
deriving DecidableEq, Repr

/-- Embeds `StorageHash = [u8; 32]`, `starknet_simulation/simulation.rs`. -/
abbrev StorageHash : Type :=
  List Nat

/-- Embeds `ClassHash = [u8; 32]` (`starknet_in_rust::utils::ClassHash`). -/
abbrev ClassHash : Type :=
  List Nat

/-- Embeds `Overrides = HashMap<StorageHash, Felt252>`,
`starknet_simulation/simulation.rs`. -/
abbrev SnOverrides : Type :=
  List (StorageHash × Nat)

/-- Embeds `SimulationError` (Starknet), `starknet_simulation/simulation.rs`. -/
inductive SnSimulationError where
  | InitError (msg : String) : SnSimulationError
  | AlreadyInitialized (msg : String) : SnSimulationError
  | OverrideError (msg : String) : SnSimulationError
  | TransactionError (msg : String) : SnSimulationError
  | StateError (msg : String) : SnSimulationError
deriving DecidableEq, Repr

/-- Embeds `SimulationParameters` (Starknet), `starknet_simulation/simulation.rs`. -/
structure SnSimulationParameters where
  caller : StarkAddress
  «to» : StarkAddress
  data : List Nat
  entry_point : String
  overrides : Option (List (StarkAddress × SnOverrides))
  gas_limit : Option Nat
  block_number : Nat

/-- Embeds `SimulationResult` (Starknet), `starknet_simulation/simulation.rs`. -/
structure SnSimulationResult where
  result : List Nat
  state_updates : List (StarkAddress × SnOverrides)
  gas_used : Nat
deriving DecidableEq, Repr

/-- The part of the `starknet_in_rust` type `CallInfo` a projector would read. -/
structure CallInfo where
  retdata : List Nat
  gas_consumed : Nat
deriving DecidableEq, Repr

/-- Embeds `starknet_in_rust::execution::execution_entry_point::ExecutionResult`. -/
structure SnExecutionResult where
  call_info : Option CallInfo
  revert_error : Option String
  n_reverted_steps : Nat
deriving DecidableEq, Repr

/-- Modelled from the spec: `RpcStateReader`
(`starknet_simulation/rpc_reader.rs`, sections 4.A and 6; the file is not
under src). A remote reader pinned to a block; `with_updated_block` re-pins
it. Reads are functions of the pin. -/
structure RpcStateReader where
  block : Nat
  class_hash_at : Nat → StarkAddress → Except String ClassHash
  storage_at : Nat → StarkAddress × StorageHash → Except String Nat

/-- Embeds `RpcStateReader::with_updated_block`: the same reader re-pinned to the
given block. -/
def RpcStateReader.with_updated_block (r : RpcStateReader) (b : Nat) : RpcStateReader :=
  { r with block := b }

/-- The part of `starknet_in_rust::state::state_cache::StateCache` these
simulations touch: initial (read-through) entries and write entries for
class hashes and storage. -/
structure StateCache where
  class_hash_initial_values : List (StarkAddress × ClassHash)
  storage_initial_values : List ((StarkAddress × StorageHash) × Nat)
  class_hash_writes : List (StarkAddress × ClassHash)
  storage_writes : List ((StarkAddress × StorageHash) × Nat)
deriving Repr

/-- Embeds `starknet_in_rust::state::cached_state::CachedState`: a state reader plus
its cache. `create_transactional` clones it into a sub-state, so the
transactional copy has the same content. -/
structure CachedState where
  state_reader : RpcStateReader
  cache : StateCache

/-- Embeds `State::set_storage_at` on the (transactional) cached state: records the
value in the storage writes of the cache. -/
def CachedState.set_storage_at (ts : CachedState) (entry : StarkAddress × StorageHash)
    (v : Nat) : CachedState :=
  { ts with
    cache := { ts.cache with
      storage_writes := ainsert ts.cache.storage_writes entry v } }

/-- Embeds `StateReader::get_class_hash_at` on the cached state: cache writes first,
then cached initial values, then the remote reader at the current pin. -/
def CachedState.get_class_hash_at (ts : CachedState) (addr : StarkAddress) :
    Except String ClassHash :=
  match alookup ts.cache.class_hash_writes addr with
  | some h => Except.ok h
  | none =>
    match alookup ts.cache.class_hash_initial_values addr with
    | some h => Except.ok h
    | none => ts.state_reader.class_hash_at ts.state_reader.block addr

/-- Embeds `SimulationEngine` (Starknet), `starknet_simulation/simulation.rs`. -/
structure SnSimulationEngine where
  state : CachedState

/-- Embeds `starknet_in_rust::execution::execution_entry_point::ExecutionEntryPoint`
as constructed by `simulate`: external entry point, `CallType::Delegate`, the
resolved class hash, and the initial gas allowance. -/
structure ExecutionEntryPoint where
  contract_address : StarkAddress
  calldata : List Nat
  entrypoint_selector : Nat
  caller_address : StarkAddress
  call_type_delegate : Bool
  class_hash : ClassHash
  initial_gas : Nat

/-- The per-call transactional state `simulate` prepares: re-pin the reader to
the parameter block, rebuild a cached state over a clone of the engine cache,
take a transactional sub-state, and apply every override slot with
`set_storage_at`. -/
def SnSimulationEngine.prepState (eng : SnSimulationEngine)
    (p : SnSimulationParameters) : CachedState :=
  let state_reader := eng.state.state_reader.with_updated_block p.block_number
  let new_state : CachedState := { state_reader := state_reader, cache := eng.state.cache }
  let test_state := new_state
  match p.overrides with
  | none => test_state
  | some ovr =>
    ovr.foldl
      (fun st av =>
        av.2.foldl (fun st2 sv => st2.set_storage_at (av.1, sv.1) sv.2) st)
      test_state

/-- The `ExecutionEntryPoint` value `simulate` builds. The selector
computation `Felt252::from_bytes_be(&calculate_sn_keccak(...))` is an external
hash, abstracted as the function `sk` on the entry-point name; the gas
allowance is `params.gas_limit.unwrap_or(0)`. -/
def SnSimulationEngine.simCall (sk : String → Nat) (p : SnSimulationParameters)
    (cls : ClassHash) : ExecutionEntryPoint :=
  { contract_address := p.«to»
    calldata := p.data
    entrypoint_selector := sk p.entry_point
    caller_address := p.caller
    call_type_delegate := true
    class_hash := cls
    initial_gas := p.gas_limit.getD 0 }

/-- The library call `ExecutionEntryPoint::execute` is external to this repository: a function
of the call description and the transactional state. -/
abbrev SnExec : Type :=
  ExecutionEntryPoint → CachedState → Except String SnExecutionResult

/-- Embeds `SimulationEngine::interpret_result` (Starknet),
`starknet_simulation/simulation.rs`: the body is `todo!()`, which panics on
every input and never produces a value; the panic is modelled as `none`. -/
def SnSimulationEngine.interpret_result (_r : SnExecutionResult) :
    Option (Except SnSimulationError SnSimulationResult) :=
  none

/-- Embeds `SimulationEngine::simulate` (Starknet): prepares the transactional state,
resolves the class hash at `params.to` (errors become `StateError`), builds
the entry-point call, executes it (errors become `TransactionError`), and
hands a successful raw result to `interpret_result`. The value is `none` when
the call panics instead of returning; the engine, held by shared reference,
is returned unchanged. -/
def SnSimulationEngine.simulateResult (ex : SnExec) (sk : String → Nat)
    (eng : SnSimulationEngine) (p : SnSimulationParameters) :
    Option (Except SnSimulationError SnSimulationResult) :=
  match (eng.prepState p).get_class_hash_at p.«to» with
  | Except.error err => some (Except.error (SnSimulationError.StateError err))
  | Except.ok cls =>
    match ex (SnSimulationEngine.simCall sk p cls) (eng.prepState p) with
    | Except.error err => some (Except.error (SnSimulationError.TransactionError err))
    | Except.ok r => SnSimulationEngine.interpret_result r

/-- The full effect of `simulate` on the engine: the computed value, and the
engine itself, which `simulate` borrows by shared reference and returns
untouched (the transactional sub-state over the cloned cache is dropped). -/
def SnSimulationEngine.simulate (ex : SnExec) (sk : String → Nat)
    (eng : SnSimulationEngine) (p : SnSimulationParameters) :
    Option (Except SnSimulationError SnSimulationResult) × SnSimulationEngine :=
  (SnSimulationEngine.simulateResult ex sk eng p, eng)

/-- A concrete override map for witness inputs (the shape of the
`test_converting_to_revm` scenario). -/
def exampleOverridesList : List (H160 × List (EU256 × EU256)) :=
  [(H160.zero, [(⟨1, 0, 0, 0⟩, ⟨11, 0, 0, 0⟩), (⟨2, 0, 0, 0⟩, ⟨22, 0, 0, 0⟩)])]

/-- A concrete EVM parameter set with a nonzero target address. -/
def exampleParams : SimulationParameters :=
  { caller := ⟨[122, 37]⟩
    «to» := ⟨[7, 1]⟩
    data := [72, 101, 108, 108, 111]
    value := ⟨123, 0, 0, 0⟩
    overrides := some exampleOverridesList
    gas_limit := some 33
    block_number := 0
    timestamp := 0 }

/-- A concrete EVM parameter set with the zero target address and all
optional fields absent. -/
def exampleParamsNone : SimulationParameters :=
  { caller := H160.zero
    «to» := H160.zero
    data := []
    value := ⟨0, 0, 0, 0⟩
    overrides := none
    gas_limit := none
    block_number := 5
    timestamp := 9 }

/-- A concrete `Debug` renderer for a unit database-error type. -/
def exDbg : Unit → String :=
  fun _ => ""

/-- C6: for every EVM simulate call, the transaction gas limit handed to the
VM equals `params.gas_limit` when present and defaults to 8,000,000 when the
field is `None`. -/
theorem evm_gas_limit_default (p : SimulationParameters) :
    (∀ g, p.gas_limit = some g → (buildEnv p).gas_limit = g) ∧
    (p.gas_limit = none → (buildEnv p).gas_limit = 8000000) := by
  constructor
  · intro g hg
    simp [buildEnv, SimulationParameters.revm_gas_limit, hg]
  · intro hg
    simp [buildEnv, SimulationParameters.revm_gas_limit, hg]

/-- Witness for C6 at concrete parameter sets. -/
theorem evm_gas_limit_default_witness :
    (buildEnv exampleParams).gas_limit = 33 ∧
    (buildEnv exampleParamsNone).gas_limit = 8000000 :=
  ⟨(evm_gas_limit_default exampleParams).1 33 rfl,
   (evm_gas_limit_default exampleParamsNone).2 rfl⟩

/-- C7: the transaction target handed to the VM is CREATE2 contract creation
with a zero salt exactly when `params.to` is the zero address, and a plain
call to `params.to` otherwise. -/
theorem evm_transact_to (p : SimulationParameters) :
    (p.«to» = H160.zero →
      p.revm_to = TransactTo.Create (CreateScheme.Create2 ⟨0, 0, 0, 0⟩)) ∧
    (p.«to» ≠ H160.zero →
      p.revm_to = TransactTo.Call (RB160.from_slice p.«to».bytes)) := by
  constructor <;> intro h <;> simp [SimulationParameters.revm_to, h]

/-- Witness for C7 at concrete parameter sets. -/
theorem evm_transact_to_witness :
    exampleParamsNone.revm_to = TransactTo.Create (CreateScheme.Create2 ⟨0, 0, 0, 0⟩) ∧
    exampleParams.revm_to = TransactTo.Call (RB160.from_slice exampleParams.«to».bytes) :=
  ⟨(evm_transact_to exampleParamsNone).1 rfl,
   (evm_transact_to exampleParams).2 (by decide)⟩

/-- C2: a `Success` outcome with gas used `g`, gas refunded `r` and output `o`
projects to `Ok` of a `SimulationResult` whose `result` is the data bytes of `o`
and whose `gas_used` is `g - r`. -/
theorem evm_success_projection {E : Type} (dbg : E → String) (g r : Nat)
    (o : Output) (s : EvmState) (h : r ≤ g) :
    interpret_evm_result dbg (Except.ok ⟨ExecutionResult.Success g r o, s⟩) =
      Except.ok (interpret_evm_success g r o s) ∧
    (interpret_evm_success g r o s).result = o.into_data ∧
    (interpret_evm_success g r o s).gas_used = g - r ∧
    (interpret_evm_success g r o s).gas_used + r = g := by
  refine ⟨rfl, rfl, rfl, ?_⟩
  simp [interpret_evm_success, Nat.sub_add_cancel h]

/-- Witness for C2: the success-projection scenario of the spec
(gas used 100, refund 10, output the six bytes of the word output). -/
theorem evm_success_projection_witness :
    interpret_evm_result exDbg
        (Except.ok ⟨ExecutionResult.Success 100 10 (Output.Call [111, 117, 116, 112, 117, 116]), []⟩) =
      Except.ok (interpret_evm_success 100 10 (Output.Call [111, 117, 116, 112, 117, 116]) []) ∧
    (interpret_evm_success 100 10 (Output.Call [111, 117, 116, 112, 117, 116]) []).result =
      (Output.Call [111, 117, 116, 112, 117, 116]).into_data ∧
    (interpret_evm_success 100 10 (Output.Call [111, 117, 116, 112, 117, 116]) []).gas_used =
      100 - 10 ∧
    (interpret_evm_success 100 10 (Output.Call [111, 117, 116, 112, 117, 116]) []).gas_used + 10 =
      100 :=
  evm_success_projection exDbg 100 10 (Output.Call [111, 117, 116, 112, 117, 116]) []
    (by decide)

/-- C4: `interpret_evm_result` is `Ok` exactly on the `Success` variant;
`Revert` maps to a `TransactionError` with the hex-rendered output and its
gas, `Halt` to a `TransactionError` with the debug-rendered reason and its
gas, an invalid transaction to a `TransactionError` with the debug-rendered
error and no gas, and a database error to a `StorageError` carrying the
error message. -/
theorem evm_error_taxonomy {E : Type} (dbg : E → String) :
    (∀ ras : ResultAndState,
      exceptIsOk (interpret_evm_result dbg (Except.ok ras)) =
        ras.result.isSuccessVariant) ∧
    (∀ e : EVMError E,
      exceptIsOk (interpret_evm_result dbg (Except.error e)) = false) ∧
    (∀ (out : List Nat) (gu : Nat) (s : EvmState),
      interpret_evm_result dbg (Except.ok ⟨ExecutionResult.Revert out gu, s⟩) =
        Except.error
          (SimulationError.TransactionError ("0x" ++ hexEncode out) (some gu))) ∧
    (∀ (reason : HaltReason) (gu : Nat) (s : EvmState),
      interpret_evm_result dbg (Except.ok ⟨ExecutionResult.Halt reason gu, s⟩) =
        Except.error
          (SimulationError.TransactionError reason.debugFmt (some gu))) ∧
    (∀ itx : InvalidTransaction,
      interpret_evm_result dbg (Except.error (EVMError.Transaction itx)) =
        Except.error
          (SimulationError.TransactionError ("EVM error: " ++ itx.debugFmt) none)) ∧
    (∀ e : E,
      interpret_evm_result dbg (Except.error (EVMError.Database e)) =
        Except.error
          (SimulationError.StorageError ("Storage error: " ++ dbg e))) := by
  refine ⟨?_, ?_, ?_, ?_, ?_, ?_⟩
  · rintro ⟨res, st⟩
    cases res <;> rfl
  · intro e
    cases e <;> rfl
  · intro out gu s
    rfl
  · intro reason gu s
    rfl
  · intro itx
    rfl
  · intro e
    rfl

/-- Witness for C4 at the concrete scenarios of the spec: revert of the bytes of
the word output at gas 100, an out-of-gas halt, and the max-fee invalid
transaction. -/
theorem evm_error_taxonomy_witness :
    interpret_evm_result exDbg
        (Except.ok ⟨ExecutionResult.Revert [111, 117, 116, 112, 117, 116] 100, []⟩) =
      Except.error (SimulationError.TransactionError ("0x6f7574707574") (some 100)) ∧
    interpret_evm_result exDbg
        (Except.ok
          ⟨ExecutionResult.Halt (HaltReason.OutOfGas OutOfGasError.BasicOutOfGas) 100, []⟩) =
      Except.error
        (SimulationError.TransactionError ("OutOfGas(BasicOutOfGas)") (some 100)) ∧
    interpret_evm_result exDbg
        (Except.error
          (EVMError.Transaction InvalidTransaction.GasMaxFeeGreaterThanPriorityFee)) =
      Except.error
        (SimulationError.TransactionError
          ("EVM error: GasMaxFeeGreaterThanPriorityFee") none) := by
  have h := evm_error_taxonomy (E := Unit) exDbg
  refine ⟨?_, ?_, ?_⟩
  · rw [h.2.2.1 [111, 117, 116, 112, 117, 116] 100 []]
    rfl
  · rw [h.2.2.2.1 (HaltReason.OutOfGas OutOfGasError.BasicOutOfGas) 100 []]
    rfl
  · rw [h.2.2.2.2.1 InvalidTransaction.GasMaxFeeGreaterThanPriorityFee]
    rfl

/-- Any slot emitted among the changed slots of an account comes from a
touched slot whose present value differs from its original value, and carries
the present value. -/
theorem mem_changedSlots {storage : List (RU256 × StorageSlot)} {kv : RU256 × RU256}
    (h : kv ∈ changedSlots storage) :
    ∃ slot, (kv.1, slot) ∈ storage ∧
      slot.present_value ≠ slot.previous_or_original_value ∧
      kv.2 = slot.present_value := by
  unfold changedSlots at h
  rcases List.mem_map.mp h with ⟨⟨k, slot⟩, hmem, hkv⟩
  rcases List.mem_filter.mp hmem with ⟨hin, hch⟩
  refine ⟨slot, ?_, ?_, ?_⟩
  · rw [← hkv]
    exact hin
  · have : slot.previous_or_original_value ≠ slot.present_value := by
      simpa [StorageSlot.is_changed] using hch
    exact fun hc => this hc.symm
  · rw [← hkv]

/-- What C3 asserts of one projected entry `u` against its touched account
`e`: the address carried over, the balance always present, the storage field
`None` exactly when no touched slot changed, and otherwise exactly the
changed slots at their present values. -/
def DeltaEntrySpec (e : RB160 × Account) (u : H160 × StateUpdate) : Prop :=
  u.1 = H160.fromRB e.1 ∧
  u.2.balance = some e.2.info.balance ∧
  (u.2.storage = none ↔ changedSlots e.2.storage = []) ∧
  ∀ st, u.2.storage = some st →
    st = changedSlots e.2.storage ∧
    ∀ kv, kv ∈ st →
      ∃ slot, (kv.1, slot) ∈ e.2.storage ∧
        slot.present_value ≠ slot.previous_or_original_value ∧
        kv.2 = slot.present_value

/-- C3: the projected `state_updates` of a successful outcome has exactly one
entry per touched account, each with the final balance of the account in `Some`;
its storage field is `None` when no reported slot changed (in particular when
no storage was reported) and otherwise holds exactly the changed slots at
their present values, never a slot whose present value equals its original. -/
theorem evm_delta_construction (g r : Nat) (o : Output) (s : EvmState) :
    List.Forall₂ DeltaEntrySpec s (interpret_evm_success g r o s).state_updates := by
  have hmap :
      (interpret_evm_success g r o s).state_updates =
        s.map fun entry =>
          (H160.fromRB entry.1,
           { balance := some entry.2.info.balance
             storage :=
               if entry.2.storage.isEmpty then
                 none
               else
                 if (changedSlots entry.2.storage).isEmpty then
                   none
                 else
                   some (changedSlots entry.2.storage) : StateUpdate }) := rfl
  rw [hmap]
  rw [List.forall₂_map_right_iff]
  rw [List.forall₂_same]
  intro e he
  refine ⟨rfl, rfl, ?_, ?_⟩
  · by_cases h1 : e.2.storage.isEmpty
    · have h2 : e.2.storage = [] := List.isEmpty_iff.mp h1
      simp [h1, h2, changedSlots]
    · by_cases h2 : (changedSlots e.2.storage).isEmpty
      · simp [h1, h2, List.isEmpty_iff.mp h2]
      · simp only [h1, h2, if_false]
        constructor
        · intro hc
          simp at hc
        · intro hc
          exact absurd (List.isEmpty_iff.mpr hc) h2
  · intro st hst
    by_cases h1 : e.2.storage.isEmpty
    · simp [h1] at hst
    · by_cases h2 : (changedSlots e.2.storage).isEmpty
      · simp [h1, h2] at hst
      · simp only [h1, h2, if_false] at hst
        have hst2 : st = changedSlots e.2.storage := by
          simpa using hst.symm
        refine ⟨hst2, ?_⟩
        intro kv hkv
        rw [hst2] at hkv
        exact mem_changedSlots hkv

/-- The touched-state map of the success-projection scenario of the spec: one
account with two storage slots, of which exactly one changed. -/
def exampleTouchedState : EvmState :=
  [(⟨List.replicate 20 0⟩,
    { info := { balance := ⟨1, 0, 0, 0⟩, nonce := 2 }
      storage :=
        [(⟨3, 1, 0, 0⟩,
          { previous_or_original_value := ⟨4, 0, 0, 0⟩, present_value := ⟨5, 0, 0, 0⟩ }),
         (⟨3, 2, 0, 0⟩,
          { previous_or_original_value := ⟨4, 0, 0, 0⟩, present_value := ⟨4, 0, 0, 0⟩ })] })]

/-- Witness for C3 at the success-projection scenario of the spec. -/
theorem evm_delta_construction_witness :
    List.Forall₂ DeltaEntrySpec exampleTouchedState
      (interpret_evm_success 100 10 (Output.Call [111, 117, 116, 112, 117, 116])
        exampleTouchedState).state_updates :=
  evm_delta_construction 100 10 (Output.Call [111, 117, 116, 112, 117, 116])
    exampleTouchedState

/-- The limb-copying word conversion preserves the numeric value. -/
theorem rU256_from_limbs_toNat (x : EU256) : (rU256_from_limbs x).toNat = x.toNat :=
  rfl

/-- What value preservation asserts of one converted override slot pair. -/
def OverrideSlotSpec (kv : EU256 × EU256) (rkv : RU256 × RU256) : Prop :=
  rkv.1.toNat = kv.1.toNat ∧ rkv.2.toNat = kv.2.toNat

/-- What value preservation asserts of one converted override map entry. -/
def OverrideEntrySpec (e : H160 × List (EU256 × EU256))
    (re : RB160 × List (RU256 × RU256)) : Prop :=
  re.1.bytes = e.1.bytes ∧ List.Forall₂ OverrideSlotSpec e.2 re.2

/-- C8 counterexample: at the zero target address the conversion does not
preserve `to` — `revm_to` yields CREATE2 contract creation, not a call
carrying the original bytes. -/
theorem evm_param_roundtrip_cex :
    exampleParamsNone.revm_to ≠
      TransactTo.Call (RB160.from_slice exampleParamsNone.«to».bytes) := by
  decide

/-- C8 amended: the conversion to VM-native form preserves `caller`, `value`
and `data` byte for byte, preserves `to` byte for byte (as a call target)
whenever `to` is not the zero address, copies the overrides map entry for
entry with every address and every slot pair value-preserved, and encodes
`block_number` and `timestamp` as 256-bit words of equal numeric value. -/
theorem evm_param_conversion (p : SimulationParameters) :
    p.revm_caller.bytes = p.caller.bytes ∧
    (p.«to» ≠ H160.zero →
      p.revm_to = TransactTo.Call (RB160.from_slice p.«to».bytes)) ∧
    p.revm_data = p.data ∧
    p.revm_value.toNat = p.value.toNat ∧
    (p.overrides = none → p.revm_overrides = none) ∧
    (∀ ovr, p.overrides = some ovr →
      ∃ rovr, p.revm_overrides = some rovr ∧
        List.Forall₂ OverrideEntrySpec ovr rovr) ∧
    p.revm_block_number.toNat = p.block_number ∧
    p.revm_timestamp.toNat = p.timestamp := by
  refine ⟨rfl, ?_, rfl, rfl, ?_, ?_, ?_, ?_⟩
  · intro h
    simp [SimulationParameters.revm_to, h]
  · intro h
    simp [SimulationParameters.revm_overrides, h]
  · intro ovr hovr
    refine ⟨ovr.map fun av =>
      (RB160.from_slice av.1.bytes,
       av.2.map fun kv => (rU256_from_limbs kv.1, rU256_from_limbs kv.2)), ?_, ?_⟩
    · simp [SimulationParameters.revm_overrides, hovr]
    · rw [List.forall₂_map_right_iff, List.forall₂_same]
      intro e he
      refine ⟨rfl, ?_⟩
      rw [List.forall₂_map_right_iff, List.forall₂_same]
      intro kv hkv
      exact ⟨rfl, rfl⟩
  · simp [SimulationParameters.revm_block_number, RU256.toNat]
  · simp [SimulationParameters.revm_timestamp, RU256.toNat]

/-- Witness for the amended C8 at a concrete parameter set with a nonzero
target and a two-slot override map. -/
theorem evm_param_conversion_witness :
    exampleParams.revm_caller.bytes = exampleParams.caller.bytes ∧
    exampleParams.revm_to = TransactTo.Call (RB160.from_slice exampleParams.«to».bytes) ∧
    exampleParams.revm_data = exampleParams.data ∧
    exampleParams.revm_value.toNat = exampleParams.value.toNat ∧
    (∃ rovr, exampleParams.revm_overrides = some rovr ∧
      List.Forall₂ OverrideEntrySpec exampleOverridesList rovr) ∧
    exampleParams.revm_block_number.toNat = exampleParams.block_number ∧
    exampleParams.revm_timestamp.toNat = exampleParams.timestamp := by
  obtain ⟨h1, h2, h3, h4, h5, h6, h7, h8⟩ := evm_param_conversion exampleParams
  exact ⟨h1, h2 (by decide), h3, h4, h6 exampleOverridesList rfl, h7, h8⟩

/-- C1: on both engines, `simulate` leaves the engine state observable to the
next call exactly as it was — so running `simulate(p1)` first does not change
the result of `simulate(p2)`. -/
theorem simulate_isolation :
    (∀ (E : Type) (ex : EvmExec E) (dbg : E → String) (eng : SimulationEngine)
        (p1 p2 : SimulationParameters),
      (SimulationEngine.simulate ex dbg eng p1).2 = eng ∧
      (SimulationEngine.simulate ex dbg (SimulationEngine.simulate ex dbg eng p1).2 p2).1 =
        (SimulationEngine.simulate ex dbg eng p2).1) ∧
    (∀ (ex : SnExec) (sk : String → Nat) (eng : SnSimulationEngine)
        (p1 p2 : SnSimulationParameters),
      (SnSimulationEngine.simulate ex sk eng p1).2 = eng ∧
      (SnSimulationEngine.simulate ex sk (SnSimulationEngine.simulate ex sk eng p1).2 p2).1 =
        (SnSimulationEngine.simulate ex sk eng p2).1) := by
  constructor
  · intro E ex dbg eng p1 p2
    exact ⟨rfl, rfl⟩
  · intro ex sk eng p1 p2
    exact ⟨rfl, rfl⟩

/-- A concrete reader that resolves every class hash. -/
def exReader : RpcStateReader :=
  { block := 0
    class_hash_at := fun _ _ => Except.ok [1]
    storage_at := fun _ _ => Except.ok 0 }

/-- A concrete reader whose class-hash resolution always fails. -/
def exReaderBad : RpcStateReader :=
  { block := 0
    class_hash_at := fun _ _ => Except.error ("unknown class hash")
    storage_at := fun _ _ => Except.ok 0 }

/-- A concrete Starknet engine over the resolving reader and an empty cache. -/
def exSnEngine : SnSimulationEngine :=
  ⟨⟨exReader, ⟨[], [], [], []⟩⟩⟩

/-- A concrete Starknet engine over the failing reader and an empty cache. -/
def exSnEngineBad : SnSimulationEngine :=
  ⟨⟨exReaderBad, ⟨[], [], [], []⟩⟩⟩

/-- A concrete Starknet parameter set. -/
def exSnParams : SnSimulationParameters :=
  { caller := ⟨1⟩
    «to» := ⟨2⟩
    data := [5, 6]
    entry_point := "transfer"
    overrides := some [(⟨2⟩, [(List.replicate 32 0, 77)])]
    gas_limit := some 100000
    block_number := 3 }

/-- A concrete Starknet parameter set with no gas limit. -/
def exSnParamsNoGas : SnSimulationParameters :=
  { caller := ⟨1⟩
    «to» := ⟨2⟩
    data := []
    entry_point := "balanceOf"
    overrides := none
    gas_limit := none
    block_number := 3 }

/-- A concrete raw execution result. -/
def exSnExecResult : SnExecutionResult :=
  ⟨some ⟨[9], 42⟩, none, 0⟩

/-- A concrete executor that always succeeds with `exSnExecResult`. -/
def exSnExecOk : SnExec :=
  fun _ _ => Except.ok exSnExecResult

/-- A concrete selector function. -/
def exSk : String → Nat :=
  fun _ => 0

/-- A concrete EVM database with no accounts and zero storage. -/
def exDB : SimulationDB :=
  { basic := fun _ => none
    storage := fun _ _ => ⟨0, 0, 0, 0⟩
    block_number := 0
    timestamp := 0 }

/-- A concrete EVM engine. -/
def exEngine : SimulationEngine :=
  ⟨exDB, false⟩

/-- A concrete EVM executor that always reverts. -/
def exEx : EvmExec Unit :=
  fun _ _ => Except.ok ⟨ExecutionResult.Revert [1] 21000, []⟩

/-- Witness for C1 at concrete engines, executors and parameter pairs. -/
theorem simulate_isolation_witness :
    ((SimulationEngine.simulate exEx exDbg exEngine exampleParams).2 = exEngine ∧
      (SimulationEngine.simulate exEx exDbg
          (SimulationEngine.simulate exEx exDbg exEngine exampleParams).2
          exampleParamsNone).1 =
        (SimulationEngine.simulate exEx exDbg exEngine exampleParamsNone).1) ∧
    ((SnSimulationEngine.simulate exSnExecOk exSk exSnEngine exSnParams).2 = exSnEngine ∧
      (SnSimulationEngine.simulate exSnExecOk exSk
          (SnSimulationEngine.simulate exSnExecOk exSk exSnEngine exSnParams).2
          exSnParamsNoGas).1 =
        (SnSimulationEngine.simulate exSnExecOk exSk exSnEngine exSnParamsNoGas).1) :=
  ⟨simulate_isolation.1 Unit exEx exDbg exEngine exampleParams exampleParamsNone,
   simulate_isolation.2 exSnExecOk exSk exSnEngine exSnParams exSnParamsNoGas⟩

/-- The code behavior behind C5: when class-hash resolution succeeds and the
entry-point execution succeeds with raw result `r`, `simulate` returns
whatever `interpret_result` produces on `r` — and `interpret_result`, being
`todo!()` in the source, produces no value at all (it panics), so the call
never returns a `SimulationResult`. -/
theorem stark_interpret_result_panics (ex : SnExec) (sk : String → Nat)
    (eng : SnSimulationEngine) (p : SnSimulationParameters) (cls : ClassHash)
    (r : SnExecutionResult)
    (hcls : (eng.prepState p).get_class_hash_at p.«to» = Except.ok cls)
    (hex : ex (SnSimulationEngine.simCall sk p cls) (eng.prepState p) = Except.ok r) :
    (SnSimulationEngine.simulate ex sk eng p).1 =
      SnSimulationEngine.interpret_result r ∧
    SnSimulationEngine.interpret_result r = none := by
  constructor
  · show SnSimulationEngine.simulateResult ex sk eng p = _
    unfold SnSimulationEngine.simulateResult
    rw [hcls]
    dsimp only
    rw [hex]
  · rfl

/-- Witness for the code behavior behind C5 at a concrete engine (class hash resolved
by the reader) and an executor that succeeds. -/
theorem stark_interpret_result_panics_witness :
    (SnSimulationEngine.simulate exSnExecOk exSk exSnEngine exSnParams).1 =
      SnSimulationEngine.interpret_result exSnExecResult ∧
    SnSimulationEngine.interpret_result exSnExecResult = none :=
  stark_interpret_result_panics exSnExecOk exSk exSnEngine exSnParams [1]
    exSnExecResult rfl rfl

/-- C9: if resolving the class hash at `params.to` on the prepared
transactional state fails, `simulate` returns `Err(StateError)` with the
message of the reader, for every executor and selector function alike — the entry
point is never executed — and the engine is unchanged. -/
theorem stark_class_hash_error (eng : SnSimulationEngine)
    (p : SnSimulationParameters) (err : String)
    (h : (eng.prepState p).get_class_hash_at p.«to» = Except.error err) :
    ∀ (ex : SnExec) (sk : String → Nat),
      (SnSimulationEngine.simulate ex sk eng p).1 =
        some (Except.error (SnSimulationError.StateError err)) ∧
      (SnSimulationEngine.simulate ex sk eng p).2 = eng := by
  intro ex sk
  constructor
  · show SnSimulationEngine.simulateResult ex sk eng p = _
    unfold SnSimulationEngine.simulateResult
    rw [h]
  · rfl

/-- Witness for C9 at a concrete engine whose reader cannot resolve any class
hash. -/
theorem stark_class_hash_error_witness :
    (SnSimulationEngine.simulate exSnExecOk exSk exSnEngineBad exSnParams).1 =
      some (Except.error (SnSimulationError.StateError ("unknown class hash"))) ∧
    (SnSimulationEngine.simulate exSnExecOk exSk exSnEngineBad exSnParams).2 =
      exSnEngineBad :=
  stark_class_hash_error exSnEngineBad exSnParams ("unknown class hash") rfl
    exSnExecOk exSk

/-- C10: the entry-point call `simulate` builds carries an initial gas
allowance of `params.gas_limit.unwrap_or(0)`: zero, not some nonzero default,
when the field is `None`. -/
theorem stark_default_gas (sk : String → Nat) (p : SnSimulationParameters)
    (cls : ClassHash) :
    (SnSimulationEngine.simCall sk p cls).initial_gas = p.gas_limit.getD 0 ∧
    (p.gas_limit = none → (SnSimulationEngine.simCall sk p cls).initial_gas = 0) := by
  constructor
  · rfl
  · intro h
    simp [SnSimulationEngine.simCall, h]

/-- Witness for C10 at a concrete parameter set with no gas limit. -/
theorem stark_default_gas_witness :
    (SnSimulationEngine.simCall exSk exSnParamsNoGas [1]).initial_gas =
      exSnParamsNoGas.gas_limit.getD 0 ∧
    (SnSimulationEngine.simCall exSk exSnParamsNoGas [1]).initial_gas = 0 :=
  ⟨(stark_default_gas exSk exSnParamsNoGas [1]).1,
   (stark_default_gas exSk exSnParamsNoGas [1]).2 rfl⟩
